import Mathlib

/-!
Verification development for the Backend-getquote scraping service.

The definitions below are a shallow embedding of the Python source:
 - `src/modules/dashboard.py` (budget parsing and categorization),
 - `src/modules/estimate.py` (session cache, login detection, targeted
   project search, row/popup extraction, the Supabase persister and the
   two synchronous worker loops),
 - `src/modules/scrape-projects.py` (the earlier revision of the targeted
   worker; behaviourally covered by the estimate.py model where cited).

Browser pages and the Supabase backend are modelled as explicit data:
a page is its current URL plus the set of selectors that resolve, the
backend is a function from insert payloads to a result, and the tenders
store is the list of payloads accepted so far.  Timestamps are passed in
as strings (`datetime.utcnow().isoformat()` values) and times as integer
seconds.  Python floats only ever hold exact small integers in the code
paths modelled here, so they are embedded as `Nat`/`Int`.
-/

namespace GetQuote

/-! ## String helpers (Python `in`, `.endswith`, `.strip`) -/

/-- List-level prefix test, `List.isPrefixOf` written out for easy unfolding. -/
def listIsPre : List Char → List Char → Bool
  | [], _ => true
  | _ :: _, [] => false
  | a :: as, b :: bs => a == b && listIsPre as bs

/-- Does `pat` occur as a contiguous sublist of `hay`?  Models Python `pat in hay`. -/
def listHasSub (pat : List Char) : List Char → Bool
  | [] => listIsPre pat []
  | hay@(_ :: rest) => listIsPre pat hay || listHasSub pat rest

/-- Python `pat in hay` on strings. -/
def strContains (hay pat : String) : Bool :=
  listHasSub pat.data hay.data

/-- Python `hay.endswith(pat)`. -/
def strEndsWith (hay pat : String) : Bool :=
  listIsPre pat.data.reverse hay.data.reverse

/-- Python `s.strip()` (whitespace both ends). -/
def pyStripChars (l : List Char) : List Char :=
  ((l.dropWhile Char.isWhitespace).reverse.dropWhile Char.isWhitespace).reverse

/-! ## dashboard.py — `extract_budget_value` (lines 101-116)

`re.findall(r'[\d,]+', s)` collects the maximal runs of digits/commas;
each run has its commas removed and is parsed as a number; the maximum is
returned, `0.0` when the input is falsy, no run exists, or parsing raises
(`float('')` on a run of only commas).  All numbers reachable here are
natural, so the float result is embedded as `Nat`. -/

/-- Characters matched by the `[\d,]+` character class. -/
def isNumChar (c : Char) : Bool := c.isDigit || c == ','

/-- Maximal runs of `[\d,]` characters, i.e. `re.findall(r'[\d,]+', ·)`.
The accumulator holds the current run, reversed. -/
def numRunsAux : List Char → List Char → List (List Char)
  | [], acc => if acc.isEmpty then [] else [acc.reverse]
  | c :: cs, acc =>
      if isNumChar c then numRunsAux cs (c :: acc)
      else if acc.isEmpty then numRunsAux cs []
      else acc.reverse :: numRunsAux cs []

/-- Digit run to its value (`float` of a digit string, exact here). -/
def digitsToNat (l : List Char) : Nat :=
  l.foldl (fun acc c => acc * 10 + (c.toNat - 48)) 0

/-- `extract_budget_value` from dashboard.py. -/
def extract_budget_value (s : String) : Nat :=
  if s = "" then 0        -- `if not budget_str: return 0.0`
  else
    let numbers := numRunsAux s.data []
    if numbers.isEmpty then 0   -- `if numbers:` fails → fall through to `return 0.0`
    else
      let digitRuns := numbers.map (fun r => r.filter (fun c => c != ','))
      if digitRuns.any (fun r => r.isEmpty) then 0  -- `float('')` raises → except → 0.0
      else (digitRuns.map digitsToNat).foldl Nat.max 0

/-! ## dashboard.py — `categorize_budget` (lines 118-131) -/

/-- `categorize_budget` from dashboard.py. -/
def categorize_budget (budget_value : Nat) : String :=
  if budget_value = 0 then "Not Specified"
  else if budget_value < 50000 then "Under $50k"
  else if budget_value < 100000 then "$50k - $100k"
  else if budget_value < 500000 then "$100k - $500k"
  else if budget_value < 1000000 then "$500k - $1M"
  else "Over $1M"

/-! ## estimate.py — session cache (lines 78-99)

`session_cache` is a dict holding at most the key `'login_time'`; it is
embedded as `Option Int` (seconds).  `get_cached_session` compares the
elapsed time against the fixed 30-minute `session_duration`. -/

/-- `self.session_duration = 1800  # 30 minutes` -/
def session_duration : Int := 1800

/-- `get_cached_session` from estimate.py: true iff a login time is cached
and strictly less than `session_duration` seconds have elapsed. -/
def get_cached_session (sessionCache : Option Int) (currentTime : Int) : Bool :=
  match sessionCache with
  | some loginTime => decide (currentTime - loginTime < session_duration)
  | none => false

/-! ## estimate.py — login detection (lines 168-194) and the auth phase of
`_scrape_estimate_one_sync` (lines 631-652)

A page is modelled by its current URL and the set of selectors that
`query_selector` resolves on it; the page never raises in the model, so
the blanket `except` branches of the Python checks are unreachable. -/

/-- A browser page: current URL plus the selectors that resolve on it. -/
structure PageModel where
  url : String
  presentSelectors : List String
deriving DecidableEq

/-- The three logged-in indicator selectors of `is_logged_in_ultra_fast`. -/
def login_indicators : List String :=
  ["tbody.styles__tenderRow__b2e48989c7e9117bd552",
   ".styles__projectLink__bb24735487bba39065d8",
   "input[placeholder*=\"Search by project name\"]"]

/-- `is_logged_in_ultra_fast` from estimate.py: immediately true when the
URL does not contain `/auth/login`, otherwise true iff one of the
indicator elements is present. -/
def is_logged_in_ultra_fast (page : PageModel) : Bool :=
  if !strContains page.url "/auth/login" then true
  else login_indicators.any (fun ind => page.presentSelectors.contains ind)

/-- Browser actions the auth phase can perform.  `fillLoginForm` and
`clickLoginButton` are the credential-submission steps of
`login_to_estimate_one_fast`. -/
inductive AuthAction where
  | fillLoginForm
  | clickLoginButton
  | gotoUrl
  | reloadPage
deriving DecidableEq

/-- The actions performed by one call to `login_to_estimate_one_fast`
(navigation to the login page aside): fill both fields, click login. -/
def loginAttemptActions : List AuthAction := [.fillLoginForm, .clickLoginButton]

/-- Environment for the auth phase: the scraper's session cache and clock
(inputs of `get_cached_session`) plus the outcomes of the runtime-dependent
steps (the two possible login attempts and the `is_logged_in`
re-verification after refresh/login). -/
structure AuthEnv where
  sessionCache : Option Int
  currentTime : Int
  firstLoginSucceeds : Bool
  loggedInAfterRefresh : Bool
  secondLoginSucceeds : Bool
deriving DecidableEq

/-- The authentication phase of `_scrape_estimate_one_sync`
(estimate.py lines 631-652).  Returns the browser actions performed, or
the `RuntimeError("❌ Login failed")` message when a login attempt fails. -/
def authPhase (page : PageModel) (env : AuthEnv) : Except String (List AuthAction) :=
  if is_logged_in_ultra_fast page then .ok []
  else if !get_cached_session env.sessionCache env.currentTime then
    if env.firstLoginSucceeds then
      let acts := loginAttemptActions ++ [.gotoUrl]
      if !env.loggedInAfterRefresh then
        if env.secondLoginSucceeds then .ok (acts ++ loginAttemptActions ++ [.gotoUrl])
        else .error "Login failed"
      else .ok acts
    else .error "Login failed"
  else
    let acts := [AuthAction.reloadPage]
    if !env.loggedInAfterRefresh then
      if env.secondLoginSucceeds then .ok (acts ++ loginAttemptActions ++ [.gotoUrl])
      else .error "Login failed"
    else .ok acts

/-! ## estimate.py — the in-memory record and the Supabase persister
(`insert_to_supabase`, lines 113-166)

`project_data` is a Python dict keyed by the display names used across
extraction ("Project Name", "Project ID", …).  It is embedded as a
structure of `Option` fields: `none` means the key is absent from the
dict.  (The dict key "scraped_at" set by the workers is never read by the
persister — the payload's `scraped_at` is a fresh `datetime.utcnow()` —
so it is not carried in the structure.) -/

/-- One entry of the "Builder Descriptions" list. -/
structure BuilderDesc where
  builder_name : Option String := none
  description : Option String := none
  builder_budget : Option String := none
deriving DecidableEq

/-- The in-memory partial tender record (the `project_data` dict). -/
structure ProjectData where
  projectName : Option String := none
  projectId : Option String := none
  projectAddress : Option String := none
  maxBudget : Option String := none
  distance : Option String := none
  category : Option String := none
  builder : Option String := none
  quoteDueBuilder : Option String := none
  projectDueDate : Option String := none
  hasDocuments : Option String := none
  interestLevel : Option String := none
  numberOfTrades : Option String := none
  submissionDeadline : Option String := none
  overallBudget : Option String := none
  builderDescriptions : Option (List BuilderDesc) := none
  sourceUrl : Option String := none
  rowNumber : Option Nat := none
deriving DecidableEq

/-- Values that can appear in the Supabase insert payload. -/
inductive SupaValue where
  | str (s : String)
  | int (n : Int)
  | bool (b : Bool)
  | nat (n : Nat)
  | descs (d : List BuilderDesc)
deriving DecidableEq

/-- An insert payload: the dict sent to `supabase.table("tenders").insert`. -/
abbrev SupaPayload := List (String × SupaValue)

/-- The tenders store: payloads accepted by the backend so far. -/
abbrev TendersStore := List SupaPayload

/-- Digit run to `Option Nat`: all-digit and non-empty, else `None`. -/
def parseDigitRun (l : List Char) : Option Nat :=
  if l.isEmpty then none
  else if l.all Char.isDigit then some (digitsToNat l) else none

/-- Python `int(s)` on a stripped string: optional sign then digits
(digit-grouping underscores are not modelled; no input here uses them). -/
def pyParseInt (s : String) : Option Int :=
  match pyStripChars s.data with
  | '-' :: rest => (parseDigitRun rest).map (fun n => -(n : Int))
  | '+' :: rest => (parseDigitRun rest).map (fun n => (n : Int))
  | l => (parseDigitRun l).map (fun n => (n : Int))

/-- `_convert_to_int` from estimate.py (lines 113-120): `None` stays
`None`; otherwise `int(str(value).strip())`, with parse failures mapped
to `None` by the `except` clause. -/
def _convert_to_int (value : Option String) : Option Int :=
  match value with
  | none => none
  | some s => pyParseInt s

/-- The `supabase_data` dict of `insert_to_supabase` before the
`None`-dropping comprehension: each key paired with its possibly-absent
value.  `now` is `datetime.utcnow().isoformat()`. -/
def supabase_dict (now : String) (d : ProjectData) : List (String × Option SupaValue) :=
  [("url", some (.str (d.sourceUrl.getD ""))),
   ("scraped_at", some (.str now)),
   ("project_name", d.projectName.map .str),
   ("project_id", d.projectId.map .str),
   ("project_address", d.projectAddress.map .str),
   ("max_budget", d.maxBudget.map .str),
   ("distance", d.distance.map .str),
   ("category", d.category.map .str),
   ("builder", d.builder.map .str),
   ("quote_due_builder", d.quoteDueBuilder.map .str),
   ("project_due_date", d.projectDueDate.map .str),
   ("has_documents", some (.bool (d.hasDocuments == some "Yes"))),
   ("interest_level", d.interestLevel.map .str),
   ("number_of_trades", (_convert_to_int d.numberOfTrades).map .int),
   ("submission_deadline", d.submissionDeadline.map .str),
   ("overall_budget", d.overallBudget.map .str),
   ("builder_descriptions", d.builderDescriptions.map .descs),
   ("row_number", d.rowNumber.map .nat)]

/-- `{k: v for k, v in supabase_data.items() if v is not None}`. -/
def pyDropNone (l : List (String × Option SupaValue)) : SupaPayload :=
  l.filterMap (fun kv => kv.2.map (fun v => (kv.1, v)))

/-- The payload actually sent to the backend. -/
def supabase_payload (now : String) (d : ProjectData) : SupaPayload :=
  pyDropNone (supabase_dict now d)

/-- Outcome of one backend insert call: `ok rows` models a normal return
with `result.data = rows`; `err` models both a rejecting result and a
raised exception (the code treats them identically via the blanket
`except`). -/
inductive SupaResult where
  | ok (rows : List SupaPayload)
  | err (msg : String)
deriving DecidableEq

/-- `insert_to_supabase` from estimate.py: builds the payload, performs
one insert, returns `True` iff the backend reports inserted data;
rejections and exceptions yield `False`, never a raised error. -/
def insert_to_supabase (backend : SupaPayload → SupaResult) (now : String)
    (d : ProjectData) : Bool :=
  match backend (supabase_payload now d) with
  | .ok rows => !rows.isEmpty
  | .err _ => false

/-- Rows added to the tenders store by one insert call: the payload when
the backend accepted the call, nothing when it rejected/raised. -/
def insertDelta (backend : SupaPayload → SupaResult) (now : String)
    (d : ProjectData) : TendersStore :=
  match backend (supabase_payload now d) with
  | .ok _ => [supabase_payload now d]
  | .err _ => []

/-! ## estimate.py — row extraction (`extract_single_project_row`,
lines 514-585) and popup extraction (`extract_project_details_fast`,
lines 398-512)

A listing row is modelled by the text each selector chain resolves to
(`none` when the selector matches nothing), the raw `td` cell texts used
for the distance scan, the presence of the "no docs" tag, and whether the
browser connection is lost during extraction (the one case where the
function returns `{}` instead of the partial record). -/

/-- A `tbody` listing row as the extractor sees it.  Text fields are
already `.strip()`ed, as `inner_text().strip()` produces them.  The body
of `extract_single_project_row` runs eleven field-extraction steps in
source order inside one `try`; `errorAfter = some k` means an exception
is raised after the first `k` steps completed, and `errorIsConnection`
records whether its message contains "Connection closed"/"Target page"
(the `except` arm's classification). -/
structure RowModel where
  projectLinkText : Option String := none
  projectIdText : Option String := none
  addressText : Option String := none
  budgetText : Option String := none
  tdCells : List String := []
  categoryText : Option String := none
  builderText : Option String := none
  quoteDateText : Option String := none
  projectDateTexts : List String := []
  noDocsPresent : Bool := false
  interestText : Option String := none
  errorAfter : Option Nat := none
  errorIsConnection : Bool := false
deriving DecidableEq

/-- The first `td` whose text contains "km" and ends with "km". -/
def firstDistanceCell (cells : List String) : Option String :=
  cells.find? (fun t => strContains t "km" && strEndsWith t "km")

/-- The `record` dict after the first `k` extraction steps of
`extract_single_project_row` have run (source order, estimate.py
lines 518-575): 1 Project Name, 2 Project ID, 3 Project Address,
4 Max Budget, 5 Distance, 6 Category, 7 Builder, 8 Quote Due (Builder),
9 Project Due Date, 10 Has Documents (always assigned), 11 Interest
Level.  A completed step contributes its field when its selector
resolves; "Project Due Date" takes the last `.projectDate` element when
several resolve, the single one otherwise. -/
def rowRecordAfter (r : RowModel) (k : Nat) : ProjectData :=
  { projectName := if 1 ≤ k then r.projectLinkText else none,
    projectId := if 2 ≤ k then r.projectIdText else none,
    projectAddress := if 3 ≤ k then r.addressText else none,
    maxBudget := if 4 ≤ k then r.budgetText else none,
    distance := if 5 ≤ k then firstDistanceCell r.tdCells else none,
    category := if 6 ≤ k then r.categoryText else none,
    builder := if 7 ≤ k then r.builderText else none,
    quoteDueBuilder := if 8 ≤ k then r.quoteDateText else none,
    projectDueDate := if 9 ≤ k then r.projectDateTexts.getLast? else none,
    hasDocuments := if 10 ≤ k then some (if r.noDocsPresent then "No" else "Yes") else none,
    interestLevel := if 11 ≤ k then r.interestText else none }

/-- `extract_single_project_row` from estimate.py.  No exception: all
eleven steps run and the record is returned.  An exception whose message
marks a lost connection ("Connection closed"/"Target page") returns the
empty dict; any other exception reaches the generic arm (lines 583-585),
which returns the partial record accumulated so far — empty when the
exception struck before any assignment. -/
def extract_single_project_row (r : RowModel) : ProjectData :=
  match r.errorAfter with
  | none => rowRecordAfter r 11
  | some k => if r.errorIsConnection then {} else rowRecordAfter r k

/-- Python truthiness of the `project_data` dict (`if project_data:`):
at least one key is present. -/
def recordNonEmpty (d : ProjectData) : Bool :=
  d.projectName.isSome || d.projectId.isSome || d.projectAddress.isSome ||
  d.maxBudget.isSome || d.distance.isSome || d.category.isSome ||
  d.builder.isSome || d.quoteDueBuilder.isSome || d.projectDueDate.isSome ||
  d.hasDocuments.isSome || d.interestLevel.isSome || d.numberOfTrades.isSome ||
  d.submissionDeadline.isSome || d.overallBudget.isSome ||
  d.builderDescriptions.isSome || d.sourceUrl.isSome || d.rowNumber.isSome

/-- What `extract_project_details_fast` returns for one opened popup:
the keys that function can set, `none` when the corresponding selector or
regex finds nothing (including the no-details-section case, where all are
`none`). -/
structure PopupDetails where
  projectName : Option String := none
  projectAddress : Option String := none
  numberOfTrades : Option String := none
  submissionDeadline : Option String := none
  overallBudget : Option String := none
  builderDescriptions : Option (List BuilderDesc) := none
deriving DecidableEq

/-- `project_data.update(detailed_info)`: keys present in the popup dict
overwrite, absent keys keep the row value. -/
def mergePopup (d : ProjectData) (p : PopupDetails) : ProjectData :=
  { d with
    projectName := match p.projectName with | some v => some v | none => d.projectName,
    projectAddress := match p.projectAddress with | some v => some v | none => d.projectAddress,
    numberOfTrades := match p.numberOfTrades with | some v => some v | none => d.numberOfTrades,
    submissionDeadline := match p.submissionDeadline with | some v => some v | none => d.submissionDeadline,
    overallBudget := match p.overallBudget with | some v => some v | none => d.overallBudget,
    builderDescriptions := match p.builderDescriptions with | some v => some v | none => d.builderDescriptions }

/-! ## estimate.py — the listing worker `_scrape_estimate_one_sync`,
per-row loop (lines 666-713)

For each row: extract; if the dict is non-empty, add `Row Number` and
`source_url`, open the popup when the project link resolves and merge the
popup fields, then call `insert_to_supabase`.  The model returns the
records handed to the persister, the payloads the store accepted, and
`rows_inserted`. -/

/-- One listing row plus what its popup yields when opened. -/
structure ListingRow where
  row : RowModel
  popup : PopupDetails
deriving DecidableEq

/-- The per-row loop of `_scrape_estimate_one_sync`, starting at row
index `i` (the loop uses `enumerate(project_rows, 1)`).  Returns
(records handed to `insert_to_supabase`, payloads accepted by the store,
`rows_inserted`). -/
def listingLoopAux (backend : SupaPayload → SupaResult) (now url : String) :
    Nat → List ListingRow → List ProjectData × TendersStore × Nat
  | _, [] => ([], [], 0)
  | i, lr :: rest =>
    let tail := listingLoopAux backend now url (i + 1) rest
    let rowData := extract_single_project_row lr.row
    if recordNonEmpty rowData then
      let withMeta := { rowData with rowNumber := some i, sourceUrl := some url }
      let full := if lr.row.projectLinkText.isSome then mergePopup withMeta lr.popup
                  else withMeta
      let inserted := insert_to_supabase backend now full
      (full :: tail.1,
       insertDelta backend now full ++ tail.2.1,
       (if inserted then 1 else 0) + tail.2.2)
    else tail

/-- `_scrape_estimate_one_sync`'s per-row phase over all enumerated rows. -/
def scrape_listing (backend : SupaPayload → SupaResult) (now url : String)
    (rows : List ListingRow) : List ProjectData × TendersStore × Nat :=
  listingLoopAux backend now url 1 rows

/-! ## estimate.py — targeted search (`search_project_by_id`,
lines 290-379)

After typing the id and submitting, the code races two outcomes.  If the
autocomplete dropdown appears within its timeout, the suggested-project
element decides the result (when it is absent the code falls through to
`return False` without consulting the results table).  Otherwise the
results table is scanned: the first row whose project-id text contains
the searched id and whose project link resolves is clicked.  Both
not-found and internal errors produce `False`; the function never raises. -/

/-- One row of the search-results table. -/
structure ResultRow where
  idText : Option String := none
  hasLink : Bool := false
deriving DecidableEq

/-- What the portal shows for one search: whether the autocomplete
dropdown appears, whether it holds a suggested project, and the results
table rows (`none` when the row container never appears). -/
structure PortalState where
  autocompleteAppears : Bool := false
  suggestionPresent : Bool := false
  resultRows : Option (List ResultRow) := none
deriving DecidableEq

/-- `search_project_by_id` from estimate.py. -/
def search_project_by_id (portal : PortalState) (project_id : String) : Bool :=
  if portal.autocompleteAppears then
    portal.suggestionPresent
  else
    match portal.resultRows with
    | none => false
    | some rows =>
        rows.any (fun r =>
          match r.idText with
          | some t => strContains t project_id && r.hasLink
          | none => false)

/-- Does any results-table row carry an id text containing `project_id`
(clickable or not)?  Used to state "no matching results-table row". -/
def rowMatchExists (portal : PortalState) (project_id : String) : Bool :=
  match portal.resultRows with
  | none => false
  | some rows =>
      rows.any (fun r =>
        match r.idText with
        | some t => strContains t project_id
        | none => false)

/-! ## estimate.py — the targeted worker `_scrape_projects_by_ids_sync`
(lines 722-841)

Per requested id the loop (inside a blanket `try/except`): search; on
failure count the id as failed with the not-found detail and continue;
otherwise extract the popup, stamp the id/meta fields, insert, and count
the id as processed or failed by the insert result.  The whole loop body
is exception-safe: the `except` arm counts the id as failed with the
exception text.  The worker performs NO store query before, during, or
after search — the tenders store is only ever written. -/

/-- The runtime environment one id meets: an exception raised in its loop
iteration (`some msg`, counted as failed), the portal's reaction to its
search, its popup contents, and the backend's reaction to its insert. -/
structure IdEnv where
  raisesMsg : Option String := none
  portal : PortalState := {}
  popup : PopupDetails := {}
  backend : SupaPayload → SupaResult

/-- The `results` dict accumulated by the worker (`sample_project` keeps
the four preview keys of the first processed record). -/
structure SampleProject where
  project_name : Option String := none
  project_id : Option String := none
  overall_budget : Option String := none
  number_of_trades : Option String := none
deriving DecidableEq

/-- The worker's `results` accumulator. -/
structure WorkerResults where
  processed : Nat := 0
  failed : Nat := 0
  details : List String := []
  sample : Option SampleProject := none
deriving DecidableEq

/-- `extract_project_details_fast` output lifted to a `project_data`
dict, then `Project ID` and `source_url` stamped in (worker steps 3). -/
def projectDataForId (popup : PopupDetails) (project_id url : String) : ProjectData :=
  { projectName := popup.projectName,
    projectAddress := popup.projectAddress,
    numberOfTrades := popup.numberOfTrades,
    submissionDeadline := popup.submissionDeadline,
    overallBudget := popup.overallBudget,
    builderDescriptions := popup.builderDescriptions,
    projectId := some project_id,
    sourceUrl := some url }

/-- The four preview fields stored in `results["sample_project"]`. -/
def mkSample (d : ProjectData) : SampleProject :=
  { project_name := d.projectName,
    project_id := d.projectId,
    overall_budget := d.overallBudget,
    number_of_trades := d.numberOfTrades }

/-- Effect of one loop iteration on the `results` accumulator.  Reads
nothing from the tenders store. -/
def processOneResults (url now : String) (env : String → IdEnv)
    (r : WorkerResults) (pid : String) : WorkerResults :=
  match (env pid).raisesMsg with
  | some msg =>
      { r with failed := r.failed + 1,
               details := r.details ++ ["Project " ++ pid ++ ": " ++ msg] }
  | none =>
    if search_project_by_id (env pid).portal pid then
      let data := projectDataForId (env pid).popup pid url
      if insert_to_supabase (env pid).backend now data then
        { r with processed := r.processed + 1,
                 sample := match r.sample with
                           | none => some (mkSample data)
                           | some s => some s,
                 details := r.details ++ ["Project " ++ pid ++ ": Successfully processed"] }
      else
        { r with failed := r.failed + 1,
                 details := r.details ++ ["Project " ++ pid ++ ": Database insertion failed"] }
    else
      { r with failed := r.failed + 1,
               details := r.details ++ ["Project " ++ pid ++ ": Not found in search"] }

/-- Effect of one loop iteration on the tenders store: an insert is
attempted exactly when the search succeeded and no exception was raised. -/
def processOneStore (url now : String) (env : String → IdEnv)
    (store : TendersStore) (pid : String) : TendersStore :=
  match (env pid).raisesMsg with
  | some _ => store
  | none =>
    if search_project_by_id (env pid).portal pid then
      store ++ insertDelta (env pid).backend now (projectDataForId (env pid).popup pid url)
    else store

/-- One iteration of the worker's per-id loop. -/
def workerStep (url now : String) (env : String → IdEnv)
    (st : WorkerResults × TendersStore) (pid : String) : WorkerResults × TendersStore :=
  (processOneResults url now env st.1 pid, processOneStore url now env st.2 pid)

/-- The per-id loop from an arbitrary starting accumulator. -/
def runWorkerFrom (url now : String) (env : String → IdEnv)
    (st : WorkerResults × TendersStore) (pids : List String) :
    WorkerResults × TendersStore :=
  pids.foldl (workerStep url now env) st

/-- `_scrape_projects_by_ids_sync` (post-login phase): run the loop over
all requested ids against the given tenders store, starting from the
fresh `results` dict. -/
def scrape_projects_by_ids_sync (url now : String) (env : String → IdEnv)
    (pids : List String) (store : TendersStore) : WorkerResults × TendersStore :=
  runWorkerFrom url now env (({} : WorkerResults), store) pids

/-! ## estimate.py — the `/scrape-project` endpoint
(`scrape_projects_by_ids`, lines 978-1133) -/

/-- Request validation (lines 994-996): an empty `project_ids` list is
rejected with `HTTPException(400, "No project IDs provided")` before the
worker is ever submitted. -/
def validateProjectIds (pids : List String) : Except (Nat × String) Unit :=
  if pids.isEmpty then .error (400, "No project IDs provided") else .ok ()

/-- The HTTP response the endpoint hands back once the worker completed. -/
structure EndpointResponse where
  httpCode : Nat
  status : String
  message : String
deriving DecidableEq

/-- Response construction (lines 1099-1133): returning the response model
means HTTP 200; the status string is decided purely by the two counters.
(The floating-point `success_rate` percentage string is display-only and
not modelled.) -/
def scrape_project_respond (total processed failed : Nat) : EndpointResponse :=
  if processed > 0 ∧ failed = 0 then
    { httpCode := 200, status := "success",
      message := "🎉 Successfully processed all " ++ toString processed ++ " projects!" }
  else if processed > 0 ∧ failed > 0 then
    { httpCode := 200, status := "partial_success",
      message := "✅ Processed " ++ toString processed ++ "/" ++ toString total ++
                 " projects. " ++ toString failed ++ " failed." }
  else
    { httpCode := 200, status := "failed",
      message := "❌ Failed to process any projects. " ++ toString failed ++ "/" ++
                 toString total ++ " errors." }

/-! ## Concrete instances used by witnesses and counterexamples -/

/-- A backend that accepts every insert and returns the inserted row. -/
def acceptBackend0 : SupaPayload → SupaResult := fun p => .ok [p]

/-- A backend that rejects (or raises on) every insert. -/
def errBackend0 : SupaPayload → SupaResult := fun _ => .err "insert rejected"

/-- A fixed `datetime.utcnow().isoformat()` value. -/
def now0 : String := "2026-01-01T00:00:00"

/-- The default tenders listing URL. -/
def url0 : String := "https://app.estimateone.com/tenders"

/-- A record with a project id and name, used to exercise the persister. -/
def sampleProjectData0 : ProjectData :=
  { projectId := some "169451", projectName := some "Test Project" }

/-- A listing row on which no selector resolves: every extracted field is
absent, yet "Has Documents" is still set by the extractor. -/
def bareListingRow : ListingRow := { row := {}, popup := {} }

/-- A listing row whose extraction hits a lost browser connection. -/
def connLostListingRow : ListingRow :=
  { row := { errorAfter := some 0, errorIsConnection := true }, popup := {} }

/-- A listing row whose extraction raises a generic (non-connection)
exception before any field was assigned: the generic `except` arm returns
the still-empty record, so the row is skipped without a lost connection. -/
def genericErrorListingRow : ListingRow :=
  { row := { errorAfter := some 0 }, popup := {} }

/-- Environment where every search succeeds via the autocomplete
suggestion and the backend accepts every insert. -/
def envC2 : String → IdEnv := fun _ =>
  { portal := { autocompleteAppears := true, suggestionPresent := true },
    backend := fun p => .ok [p] }

/-- Environment where the autocomplete dropdown appears but holds no
suggestion and the results table never appears: nothing is found. -/
def envC6 : String → IdEnv := fun _ =>
  { portal := { autocompleteAppears := true }, backend := fun p => .ok [p] }

/-- A page already on the tenders listing (URL off the login path). -/
def page0 : PageModel :=
  { url := "https://app.estimateone.com/tenders", presentSelectors := [] }

/-- An auth environment in which every fallback step would fail — showing
that the fast path never reaches them. -/
def authEnv0 : AuthEnv :=
  { sessionCache := none, currentTime := 0, firstLoginSucceeds := false,
    loggedInAfterRefresh := false, secondLoginSucceeds := false }

/-! ## Helper lemmas -/

/-- A key survives the `None`-dropping dict comprehension iff the
original dict holds a present (`some`) value for it. -/
theorem mem_pyDropNone_keys (l : List (String × Option SupaValue)) (k : String) :
    k ∈ (pyDropNone l).map Prod.fst ↔ ∃ v, (k, some v) ∈ l := by
  induction l with
  | nil => simp [pyDropNone]
  | cons kv rest ih =>
    obtain ⟨k', v?⟩ := kv
    cases v? with
    | none => simpa [pyDropNone, List.filterMap_cons] using ih
    | some v₀ =>
      simp only [pyDropNone, List.filterMap_cons, Option.map_some', List.map_cons,
        List.mem_cons, Prod.mk.injEq, Option.some.injEq] at *
      constructor
      · rintro (rfl | h)
        · exact ⟨v₀, Or.inl ⟨rfl, rfl⟩⟩
        · obtain ⟨v, hv⟩ := ih.mp h
          exact ⟨v, Or.inr hv⟩
      · rintro ⟨v, ⟨rfl, rfl⟩ | h⟩
        · exact Or.inl rfl
        · exact Or.inr (ih.mpr ⟨v, h⟩)

/-- When the record has no "Project ID" key, the insert payload has no
`project_id` column either: the comprehension drops it. -/
theorem project_id_dropped (now : String) (d : ProjectData) (h : d.projectId = none) :
    "project_id" ∉ (supabase_payload now d).map Prod.fst := by
  rw [supabase_payload, mem_pyDropNone_keys]
  rintro ⟨v, hv⟩
  simp [supabase_dict, h] at hv

/-- Any row extraction that completes without an exception yields a
non-empty dict, because step 10 sets "Has Documents" unconditionally. -/
theorem row_extract_nonempty (r : RowModel) (h : r.errorAfter = none) :
    recordNonEmpty (extract_single_project_row r) = true := by
  simp [extract_single_project_row, h, rowRecordAfter, recordNonEmpty]

/-- An exception before any assignment leaves the record empty on BOTH
`except` arms: the connection arm returns `{}` and the generic arm
returns the still-empty accumulated record, so a row can be skipped
without a lost connection. -/
theorem row_extract_empty_on_early_error (r : RowModel) (h : r.errorAfter = some 0) :
    recordNonEmpty (extract_single_project_row r) = false := by
  unfold extract_single_project_row
  rw [h]
  cases hc : r.errorIsConnection with
  | true => simp [recordNonEmpty]
  | false => simp [rowRecordAfter, recordNonEmpty]

/-- The listing loop hands exactly the rows with non-empty extraction to
the persister, regardless of the starting row index. -/
theorem listingLoopAux_length (backend : SupaPayload → SupaResult) (now url : String)
    (rows : List ListingRow) : ∀ i : Nat,
    (listingLoopAux backend now url i rows).1.length =
      (rows.filter (fun lr => recordNonEmpty (extract_single_project_row lr.row))).length := by
  induction rows with
  | nil => intro i; rfl
  | cons lr rest ih =>
    intro i
    unfold listingLoopAux
    cases hne : recordNonEmpty (extract_single_project_row lr.row) with
    | true => simp [hne, List.filter_cons, ih]
    | false => simp [hne, List.filter_cons, ih]

/-- Every loop iteration of the targeted worker increments exactly one of
the two counters. -/
theorem workerStep_counts (url now : String) (env : String → IdEnv)
    (st : WorkerResults × TendersStore) (pid : String) :
    (workerStep url now env st pid).1.processed + (workerStep url now env st pid).1.failed
      = st.1.processed + st.1.failed + 1 := by
  unfold workerStep processOneResults
  cases h : (env pid).raisesMsg with
  | some msg => simp [h]; omega
  | none =>
    simp only [h]
    split
    · split <;> (simp; omega)
    · simp; omega

/-- Summed over the whole loop: `processed + failed` grows by the number
of ids. -/
theorem runWorkerFrom_counts (url now : String) (env : String → IdEnv)
    (pids : List String) : ∀ st : WorkerResults × TendersStore,
    (runWorkerFrom url now env st pids).1.processed +
      (runWorkerFrom url now env st pids).1.failed
      = st.1.processed + st.1.failed + pids.length := by
  induction pids with
  | nil => intro st; simp [runWorkerFrom]
  | cons pid rest ih =>
    intro st
    simp only [runWorkerFrom, List.foldl_cons] at *
    rw [ih (workerStep url now env st pid), workerStep_counts]
    simp [List.length_cons]; omega

/-- The worker's `results` are independent of the tenders store it runs
against: the loop never reads the store (no deduplication query exists). -/
theorem runWorkerFrom_results_store (url now : String) (env : String → IdEnv)
    (pids : List String) : ∀ (r : WorkerResults) (store store' : TendersStore),
    (runWorkerFrom url now env (r, store) pids).1 =
      (runWorkerFrom url now env (r, store') pids).1 := by
  induction pids with
  | nil => intros; rfl
  | cons pid rest ih =>
    intro r store store'
    simp only [runWorkerFrom, List.foldl_cons, workerStep] at *
    exact ih _ _ _

/-- When the autocomplete holds no suggestion and no results-table row
carries an id text containing the searched id, the search returns
`False`. -/
theorem search_false_of_no_match (portal : PortalState) (pid : String)
    (hsugg : portal.suggestionPresent = false)
    (hrow : rowMatchExists portal pid = false) :
    search_project_by_id portal pid = false := by
  unfold search_project_by_id
  unfold rowMatchExists at hrow
  cases hac : portal.autocompleteAppears with
  | true => simpa [hac] using hsugg
  | false =>
    simp only [hac, Bool.false_eq_true, if_false]
    cases hrr : portal.resultRows with
    | none => rfl
    | some rows =>
      simp only [hrr] at hrow ⊢
      rw [List.any_eq_false] at hrow ⊢
      intro r hr
      have hnc := hrow r hr
      cases hid : r.idText with
      | none => simp
      | some t =>
        simp only [hid] at hnc ⊢
        simp only [Bool.and_eq_true, not_and]
        intro hc
        exact absurd hc (by simpa using hnc)

/-! ## Claim theorems -/

/-- C1 counterexample: a listing row on which no selector resolves (and
whose extraction raises no exception) still produces a non-empty record —
"Has Documents" is always set — so `_scrape_estimate_one_sync` hands a
record with an absent project id to `insert_to_supabase`, and the
accepted store row has no `project_id` column.  This refutes the claim
that a record never reaches the Persister unless its `project_id` is
non-empty. -/
theorem C1_counterexample :
    ((scrape_listing acceptBackend0 now0 url0 [bareListingRow]).1.map
      (fun d => d.projectId)) = [none] ∧
    (scrape_listing acceptBackend0 now0 url0 [bareListingRow]).2.1.length = 1 ∧
    (((scrape_listing acceptBackend0 now0 url0 [bareListingRow]).2.1.headD []).map
      Prod.fst).contains "project_id" = false := by
  refine ⟨by decide, by decide, by decide⟩

/-- C1 (amended): a record is handed to the Persister exactly when the
extracted row dict is non-empty — the code checks dict truthiness, never
`project_id`.  Any extraction that completes without an exception yields
a non-empty record (step 10 always sets "Has Documents"), so records
lacking a project id are handed over with the absent `project_id` dropped
from the insert payload; an extraction interrupted before any assignment
yields the empty record on either `except` arm (connection-lost or
generic), and only such rows are skipped. -/
theorem C1_amended_theorem (backend : SupaPayload → SupaResult) (now url : String)
    (rows : List ListingRow) :
    (scrape_listing backend now url rows).1.length =
      (rows.filter (fun lr => recordNonEmpty (extract_single_project_row lr.row))).length ∧
    (∀ (now' : String) (d : ProjectData), d.projectId = none →
      "project_id" ∉ (supabase_payload now' d).map Prod.fst) ∧
    (∀ r : RowModel, r.errorAfter = none →
      recordNonEmpty (extract_single_project_row r) = true) ∧
    (∀ r : RowModel, r.errorAfter = some 0 →
      recordNonEmpty (extract_single_project_row r) = false) :=
  ⟨listingLoopAux_length backend now url rows 1,
   fun now' d h => project_id_dropped now' d h,
   fun r h => row_extract_nonempty r h,
   fun r h => row_extract_empty_on_early_error r h⟩

/-- C1 witness: the amended theorem evaluated concretely — a
connection-lost row and a generic-early-exception row are both skipped,
the empty record's payload lacks `project_id`, and the
all-selectors-missing exception-free row still extracts non-empty. -/
theorem C1_amended_witness :
    (scrape_listing acceptBackend0 now0 url0
      [connLostListingRow, genericErrorListingRow]).1.length = 0 ∧
    "project_id" ∉ (supabase_payload now0 ({} : ProjectData)).map Prod.fst ∧
    recordNonEmpty (extract_single_project_row ({} : RowModel)) = true ∧
    recordNonEmpty (extract_single_project_row genericErrorListingRow.row) = false := by
  refine ⟨?_, ?_, ?_, ?_⟩
  · rw [(C1_amended_theorem acceptBackend0 now0 url0
      [connLostListingRow, genericErrorListingRow]).1]
    decide
  · exact (C1_amended_theorem acceptBackend0 now0 url0 []).2.1 now0 {} rfl
  · exact (C1_amended_theorem acceptBackend0 now0 url0 []).2.2.1 {} rfl
  · exact (C1_amended_theorem acceptBackend0 now0 url0 []).2.2.2 genericErrorListingRow.row rfl

/-- C2 counterexample: submitting project id 169451 in two successive job
runs (search finds it each time, backend accepts each insert) leaves TWO
records in the tenders store, and the second run reports the id as
processed ("Successfully processed"), not as a skipped duplicate — the
worker performs no store query before navigation.  This refutes the claim
of exactly one persisted record with `processed` unchanged. -/
theorem C2_counterexample :
    (scrape_projects_by_ids_sync url0 now0 envC2 ["169451"]
        (scrape_projects_by_ids_sync url0 now0 envC2 ["169451"] []).2).2.length = 2 ∧
    (scrape_projects_by_ids_sync url0 now0 envC2 ["169451"]
        (scrape_projects_by_ids_sync url0 now0 envC2 ["169451"] []).2).1.processed = 1 ∧
    (scrape_projects_by_ids_sync url0 now0 envC2 ["169451"]
        (scrape_projects_by_ids_sync url0 now0 envC2 ["169451"] []).2).1.details =
      ["Project 169451: Successfully processed"] := by
  refine ⟨by decide, by decide, by decide⟩

/-- C2 (amended): the targeted worker never consults the tenders store —
its run summary is identical for any store contents — and re-submitting a
findable id in a second run repeats the full search/extract/insert, so
(with an accepting backend) each run counts the id under `processed` and
the store ends up holding two records for it.  No skipped-duplicate
category exists. -/
theorem C2_amended_theorem (url now : String) (env : String → IdEnv) (pid : String)
    (hraise : (env pid).raisesMsg = none)
    (hfound : search_project_by_id (env pid).portal pid = true)
    (haccept : ∀ p, (env pid).backend p = .ok [p]) :
    (∀ (pids : List String) (store store' : TendersStore),
        (scrape_projects_by_ids_sync url now env pids store).1 =
        (scrape_projects_by_ids_sync url now env pids store').1) ∧
    (scrape_projects_by_ids_sync url now env [pid] []).1.processed = 1 ∧
    (scrape_projects_by_ids_sync url now env [pid]
        (scrape_projects_by_ids_sync url now env [pid] []).2).1.processed = 1 ∧
    (scrape_projects_by_ids_sync url now env [pid]
        (scrape_projects_by_ids_sync url now env [pid] []).2).2.length = 2 := by
  have hins : insert_to_supabase (env pid).backend now
      (projectDataForId (env pid).popup pid url) = true := by
    unfold insert_to_supabase
    rw [haccept]
    rfl
  have hdelta : insertDelta (env pid).backend now
      (projectDataForId (env pid).popup pid url) =
      [supabase_payload now (projectDataForId (env pid).popup pid url)] := by
    unfold insertDelta
    rw [haccept]
  have hrun : ∀ store : TendersStore,
      scrape_projects_by_ids_sync url now env [pid] store =
      ({ processed := 1, failed := 0,
         details := ["Project " ++ pid ++ ": Successfully processed"],
         sample := some (mkSample (projectDataForId (env pid).popup pid url)) },
       store ++ [supabase_payload now (projectDataForId (env pid).popup pid url)]) := by
    intro store
    simp [scrape_projects_by_ids_sync, runWorkerFrom, workerStep, processOneResults,
      processOneStore, hraise, hfound, hins, hdelta]
  refine ⟨?_, ?_, ?_, ?_⟩
  · intro pids store store'
    exact runWorkerFrom_results_store url now env pids {} store store'
  · rw [hrun]
  · rw [hrun, hrun]
  · rw [hrun, hrun]
    simp

/-- C2 witness: the amended theorem at id 169451 with the concrete
suggestion-hit environment and accepting backend, plus the
store-independence conjunct instantiated at two different stores. -/
theorem C2_amended_witness :
    (scrape_projects_by_ids_sync url0 now0 envC2 ["169451"] []).1.processed = 1 ∧
    (scrape_projects_by_ids_sync url0 now0 envC2 ["169451"]
        (scrape_projects_by_ids_sync url0 now0 envC2 ["169451"] []).2).1.processed = 1 ∧
    (scrape_projects_by_ids_sync url0 now0 envC2 ["169451"]
        (scrape_projects_by_ids_sync url0 now0 envC2 ["169451"] []).2).2.length = 2 ∧
    (scrape_projects_by_ids_sync url0 now0 envC2 ["169451"] []).1 =
      (scrape_projects_by_ids_sync url0 now0 envC2 ["169451"] [[]]).1 := by
  have h := C2_amended_theorem url0 now0 envC2 "169451" rfl rfl (fun p => rfl)
  exact ⟨h.2.1, h.2.2.1, h.2.2.2, h.1 ["169451"] [] [[]]⟩

/-- C3: `extract_budget_value` returns 100000 (the maximum of the
comma-stripped numbers) on "$50,000 - $100,000", and 0 on "TBD" and on
the empty string. -/
theorem C3_theorem :
    extract_budget_value "$50,000 - $100,000" = 100000 ∧
    extract_budget_value "TBD" = 0 ∧
    extract_budget_value "" = 0 := by
  refine ⟨by decide, by decide, by decide⟩

/-- C4: `categorize_budget` maps 0 to "Not Specified", 49999 to
"Under $50k", 50000 to "$50k - $100k", 1000000 to "Over $1M", every value
in [100000, 500000) to "$100k - $500k", and every value in
[500000, 1000000) to "$500k - $1M". -/
theorem C4_theorem :
    categorize_budget 0 = "Not Specified" ∧
    categorize_budget 49999 = "Under $50k" ∧
    categorize_budget 50000 = "$50k - $100k" ∧
    categorize_budget 1000000 = "Over $1M" ∧
    (∀ v : Nat, 100000 ≤ v → v < 500000 → categorize_budget v = "$100k - $500k") ∧
    (∀ v : Nat, 500000 ≤ v → v < 1000000 → categorize_budget v = "$500k - $1M") := by
  refine ⟨by decide, by decide, by decide, by decide, ?_, ?_⟩
  · intro v h1 h2
    unfold categorize_budget
    rw [if_neg (by omega), if_neg (by omega), if_neg (by omega), if_pos h2]
  · intro v h1 h2
    unfold categorize_budget
    rw [if_neg (by omega), if_neg (by omega), if_neg (by omega), if_neg (by omega),
      if_pos h2]

/-- C4 witness: the two range clauses evaluated at 200000 and 600000. -/
theorem C4_witness :
    categorize_budget 200000 = "$100k - $500k" ∧
    categorize_budget 600000 = "$500k - $1M" :=
  ⟨C4_theorem.2.2.2.2.1 200000 (by decide) (by decide),
   C4_theorem.2.2.2.2.2 600000 (by decide) (by decide)⟩

/-- C5: for every page whose URL does not contain "/auth/login",
`is_logged_in_ultra_fast` returns true and the job's authentication phase
performs no browser action at all — in particular no login-form fill and
no login-button click — whatever the cached session, clock, or login
outcomes would have been. -/
theorem C5_theorem (page : PageModel) (env : AuthEnv)
    (h : strContains page.url "/auth/login" = false) :
    is_logged_in_ultra_fast page = true ∧ authPhase page env = .ok [] := by
  have hfast : is_logged_in_ultra_fast page = true := by
    unfold is_logged_in_ultra_fast
    rw [h]
    simp
  refine ⟨hfast, ?_⟩
  unfold authPhase
  rw [hfast]
  simp

/-- C5 witness: the theorem at the tenders-listing URL with an environment
whose every fallback step would fail. -/
theorem C5_witness :
    is_logged_in_ultra_fast page0 = true ∧ authPhase page0 authEnv0 = .ok [] :=
  C5_theorem page0 authEnv0 (by decide)

/-- C6: when an id's search finds neither an autocomplete suggestion nor
a results-table row whose id text contains it, `search_project_by_id`
returns false (it never raises), the worker counts the id under `failed`
with the detail "Not found in search", leaves the store untouched, and
the loop continues with the remaining ids — the run always yields a
summary, never an escaping exception. -/
theorem C6_theorem (url now : String) (env : String → IdEnv) (pid : String)
    (rest : List String) (store : TendersStore)
    (hraise : (env pid).raisesMsg = none)
    (hsugg : (env pid).portal.suggestionPresent = false)
    (hrow : rowMatchExists (env pid).portal pid = false) :
    search_project_by_id (env pid).portal pid = false ∧
    (scrape_projects_by_ids_sync url now env [pid] store).1 =
      { processed := 0, failed := 1,
        details := ["Project " ++ pid ++ ": Not found in search"], sample := none } ∧
    (scrape_projects_by_ids_sync url now env [pid] store).2 = store ∧
    scrape_projects_by_ids_sync url now env (pid :: rest) store =
      runWorkerFrom url now env
        ({ processed := 0, failed := 1,
           details := ["Project " ++ pid ++ ": Not found in search"], sample := none }, store)
        rest := by
  have hsearch := search_false_of_no_match (env pid).portal pid hsugg hrow
  have hstep : workerStep url now env (({} : WorkerResults), store) pid =
      ({ processed := 0, failed := 1,
         details := ["Project " ++ pid ++ ": Not found in search"], sample := none }, store) := by
    simp [workerStep, processOneResults, processOneStore, hraise, hsearch]
  refine ⟨hsearch, ?_, ?_, ?_⟩
  · simp [scrape_projects_by_ids_sync, runWorkerFrom, hstep]
  · simp [scrape_projects_by_ids_sync, runWorkerFrom, hstep]
  · simp only [scrape_projects_by_ids_sync, runWorkerFrom, List.foldl_cons, hstep]

/-- C6 witness: the theorem at id 999999 against a portal whose
autocomplete appears without a suggestion and whose results table never
renders, with one further id remaining in the batch. -/
theorem C6_witness :
    search_project_by_id (envC6 "999999").portal "999999" = false ∧
    (scrape_projects_by_ids_sync url0 now0 envC6 ["999999"] []).1 =
      { processed := 0, failed := 1,
        details := ["Project " ++ "999999" ++ ": Not found in search"], sample := none } ∧
    (scrape_projects_by_ids_sync url0 now0 envC6 ["999999"] []).2 = [] ∧
    scrape_projects_by_ids_sync url0 now0 envC6 ("999999" :: ["169451"]) [] =
      runWorkerFrom url0 now0 envC6
        ({ processed := 0, failed := 1,
           details := ["Project " ++ "999999" ++ ": Not found in search"], sample := none }, [])
        ["169451"] :=
  C6_theorem url0 now0 envC6 "999999" ["169451"] [] rfl rfl rfl

/-- C7: the persister is total with respect to backend failures — it
returns false (never propagates) whenever the backend rejects or raises,
returns true exactly when the backend reports a non-empty inserted-data
list, and its payload contains a key iff the mapped dict holds a present
(non-`None`) value for it, so absent fields are dropped rather than
written as nulls. -/
theorem C7_theorem (backend : SupaPayload → SupaResult) (now : String) (d : ProjectData) :
    (∀ msg, backend (supabase_payload now d) = .err msg →
        insert_to_supabase backend now d = false) ∧
    (insert_to_supabase backend now d = true ↔
        ∃ rows, backend (supabase_payload now d) = .ok rows ∧ rows ≠ []) ∧
    (∀ k, k ∈ (supabase_payload now d).map Prod.fst ↔
        ∃ v, (k, some v) ∈ supabase_dict now d) := by
  refine ⟨?_, ?_, ?_⟩
  · intro msg h
    simp [insert_to_supabase, h]
  · cases h : backend (supabase_payload now d) with
    | ok rows => simp [insert_to_supabase, h]
    | err m => simp [insert_to_supabase, h]
  · intro k
    exact mem_pyDropNone_keys _ k

/-- C7 witness: a rejecting backend makes the persister return false on a
concrete record. -/
theorem C7_witness : insert_to_supabase errBackend0 now0 sampleProjectData0 = false :=
  (C7_theorem errBackend0 now0 sampleProjectData0).1 "insert rejected" rfl

/-- C8: a cached session whose elapsed time reaches the fixed 1800-second
TTL is reported invalid by `get_cached_session`, while any strictly
younger cached session is reported valid. -/
theorem C8_theorem (currentTime loginTime : Int) :
    (session_duration ≤ currentTime - loginTime →
      get_cached_session (some loginTime) currentTime = false) ∧
    (currentTime - loginTime < session_duration →
      get_cached_session (some loginTime) currentTime = true) := by
  constructor <;> intro h <;> simp [get_cached_session, session_duration] at * <;> omega

/-- C8 witness: exactly at 1800 elapsed seconds the session is invalid;
at 1799 it is still valid. -/
theorem C8_witness :
    get_cached_session (some 0) 1800 = false ∧ get_cached_session (some 0) 1799 = true :=
  ⟨(C8_theorem 1800 0).1 (by decide), (C8_theorem 1799 0).2 (by decide)⟩

/-- C9: once the worker completes, the `/scrape-project` endpoint answers
HTTP 200 with status "success" when `processed > 0 ∧ failed = 0`,
"partial_success" when `processed > 0 ∧ failed > 0`, and "failed"
otherwise — row failures never turn into a non-2xx response. -/
theorem C9_theorem (total processed failed : Nat) :
    (scrape_project_respond total processed failed).httpCode = 200 ∧
    (processed > 0 → failed = 0 →
      (scrape_project_respond total processed failed).status = "success") ∧
    (processed > 0 → failed > 0 →
      (scrape_project_respond total processed failed).status = "partial_success") ∧
    (processed = 0 → (scrape_project_respond total processed failed).status = "failed") := by
  refine ⟨?_, ?_, ?_, ?_⟩
  · unfold scrape_project_respond
    split
    · rfl
    · split
      · rfl
      · rfl
  · intro h1 h2
    unfold scrape_project_respond
    rw [if_pos ⟨h1, h2⟩]
  · intro h1 h2
    unfold scrape_project_respond
    rw [if_neg (by omega), if_pos ⟨h1, h2⟩]
  · intro h1
    unfold scrape_project_respond
    rw [if_neg (by omega), if_neg (by omega)]

/-- C9 witness: one processed and one failed row still answer HTTP 200
with status partial_success. -/
theorem C9_witness :
    (scrape_project_respond 2 1 1).httpCode = 200 ∧
    (scrape_project_respond 2 1 1).status = "partial_success" :=
  ⟨(C9_theorem 2 1 1).1, (C9_theorem 2 1 1).2.2.1 (by decide) (by decide)⟩

/-- C10: for every targeted run the summary satisfies
`processed + failed = number of requested ids` — each id lands in exactly
one counter — and the endpoint rejects an empty id list with a 400 before
the worker runs, so the success-rate division is over a non-zero total. -/
theorem C10_theorem (url now : String) (env : String → IdEnv)
    (pids : List String) (store : TendersStore) :
    (scrape_projects_by_ids_sync url now env pids store).1.processed +
      (scrape_projects_by_ids_sync url now env pids store).1.failed = pids.length ∧
    validateProjectIds [] = .error (400, "No project IDs provided") := by
  constructor
  · have h := runWorkerFrom_counts url now env pids (({} : WorkerResults), store)
    simpa [scrape_projects_by_ids_sync] using h
  · rfl

end GetQuote
